import Mathlib

/-!
Verification of the `kippetjes` door controller (`src/motor.py`).

The embedding models the module's pure state machine and the `Door`
methods as explicit state-passing functions.  Times (`datetime` /
`time` values) are modelled as natural numbers counting microseconds;
`datetime.now(...)` becomes an explicit `now : Nat` argument.  Python
exceptions that can escape a function (`ValueError`, the `NameError`
caused by the undefined name `CLOSING_THESHOLD` on line 203, and the
`TypeError` from adding a `timedelta` to `None`) are modelled with
`Except PyErr`.
-/

set_option autoImplicit false

deriving instance DecidableEq for Except

namespace Kippetjes

/-- Python exceptions that the code in `motor.py` can raise. -/
inductive PyErr where
  | valueError : PyErr
  | nameError : PyErr
  | typeError : PyErr
deriving DecidableEq, Repr

/-- `class State(Enum)` (motor.py lines 18-26): the eight door states. -/
inductive State where
  | opening : State
  | opening_stopped : State
  | «open» : State
  | closing : State
  | closing_stopped : State
  | closed : State
  | unknown : State
  | error : State
deriving DecidableEq, Fintype, Repr

/-- One second, in the microsecond time scale of the model. -/
def USEC_PER_SEC : Nat := 1000000

/-- `OPENING_THRESHOLD = timedelta(seconds=2)` (line 15). -/
def OPENING_THRESHOLD : Nat := 2 * USEC_PER_SEC

/-- `CLOSING_THRESHOLD = timedelta(seconds=2)` (line 16). -/
def CLOSING_THRESHOLD : Nat := 2 * USEC_PER_SEC

/-- `DEFAULT_SLEEP = 10` (line 14), in seconds. -/
def DEFAULT_SLEEP : Nat := 10

/-- One hour of a time-of-day value, in microseconds. -/
def USEC_PER_HOUR : Nat := 3600 * USEC_PER_SEC

/-- The `.hour` field of a time-of-day value given in microseconds. -/
def hourOf (t : Nat) : Nat := t / USEC_PER_HOUR

/-- `time(6,0,0,0)`: 06:00 local, as microseconds since midnight. -/
def SIX_AM : Nat := 6 * USEC_PER_HOUR

/-- `desired_state()` (lines 40-54), with the readings of
`SUN.sunrise()`, `SUN.sunset()` and `datetime.now(...).time()` passed
in as explicit time-of-day arguments. -/
def desired_state (rise set now : Nat) : State :=
  let rise := if hourOf rise < 6 then SIX_AM else rise
  if rise < now ∧ now < set then State.«open» else State.closed

/-- The clamped sunrise computed inside `desired_state` (lines 46-48). -/
def effective_rise (rise : Nat) : Nat :=
  if hourOf rise < 6 then SIX_AM else rise

/-- `transition_state(actual, desired)` (lines 57-67); the
`raise ValueError` on line 67 becomes `Except.error PyErr.valueError`. -/
def transition_state (actual desired : State) : Except PyErr State :=
  if actual = State.error ∨ actual = desired then .ok actual
  else if desired = State.«open» then .ok State.opening
  else if desired = State.closed then .ok State.closing
  else .error PyErr.valueError

/-- `toggle_state(current)` (lines 70-84); the `raise ValueError` on
line 84 becomes `Except.error PyErr.valueError`. -/
def toggle_state (current : State) : Except PyErr State :=
  if current = State.unknown ∨ current = State.error then .ok State.«open»
  else if current = State.opening then .ok State.opening_stopped
  else if current = State.opening_stopped ∨ current = State.«open» then .ok State.closed
  else if current = State.closing then .ok State.closing_stopped
  else if current = State.closing_stopped ∨ current = State.closed then .ok State.«open»
  else .error PyErr.valueError

/-- `is_moving(state)` (lines 87-88). -/
def is_moving (state : State) : Prop :=
  state = State.opening ∨ state = State.closing

instance (state : State) : Decidable (is_moving state) := by
  unfold is_moving; infer_instance

/-- The mutable attributes of `class Door` (lines 113-117) that the
state machine reads and writes: the current state and the two motion
timestamps.  (The class attribute `desired_state` is never assigned or
read on instances and is omitted; the GPIO objects are I/O handles
whose current readings enter the model as `Bool`/`Nat` arguments.) -/
structure Door where
  state : State
  opening_started : Option Nat
  closing_started : Option Nat
deriving DecidableEq, Repr

/-- The state-change path of `Door.__set_state` (lines 166-177): update
the two timestamps and assign the new state.  (The indicator/motor
side effects on lines 178-179 are fire-and-forget I/O and carry no
state.)  The resulting `Door` does not depend on the previous one:
every field is overwritten. -/
def apply_state_change (now : Nat) (state : State) : Door :=
  { state := state
    opening_started := if state = State.opening then some now else none
    closing_started := if state = State.closing then some now else none }

/-- The fall-through second conditional of `Door.__check_blocked`
(lines 187-189): the closing-direction check, then `return 0`.
`self.closing_started + CLOSING_THRESHOLD` raises `TypeError` when
`closing_started` is `None`; the call `self.__set_state(State.error)`
is inlined as `apply_state_change now State.error` with result `0`,
which is exactly what `set_state` does from a moving state (lemma
`set_state_error_of_moving` below). -/
def check_blocked_closing (d : Door) (now : Nat) (upper : Bool) :
    Except PyErr (Door × Nat) :=
  if d.state = State.closing ∧ upper = true then
    match d.closing_started with
    | none => .error PyErr.typeError
    | some t0 =>
      if t0 + CLOSING_THRESHOLD < now then .ok (apply_state_change now State.error, 0)
      else .ok (d, 0)
  else .ok (d, 0)

/-- `Door.__check_blocked` (lines 183-189), with `datetime.now(...)`
and the two sensor readings `self.upper.is_pressed` /
`self.lower.is_pressed` as arguments.  The first conditional (line
185) is the opening-direction check; on fall-through, control reaches
`check_blocked_closing`. -/
def check_blocked (d : Door) (now : Nat) (upper lower : Bool) :
    Except PyErr (Door × Nat) :=
  if d.state = State.opening ∧ lower = true then
    match d.opening_started with
    | none => .error PyErr.typeError
    | some t0 =>
      if t0 + OPENING_THRESHOLD < now then .ok (apply_state_change now State.error, 0)
      else check_blocked_closing d now upper
  else check_blocked_closing d now upper

/-- `Door.__set_state` (lines 160-181): fast path when the state is
unchanged (blocked check while moving, else return `DEFAULT_SLEEP`),
otherwise the state-change path returning `0`. -/
def set_state (d : Door) (now : Nat) (upper lower : Bool) (state : State) :
    Except PyErr (Door × Nat) :=
  if d.state = state then
    if is_moving state then check_blocked d now upper lower
    else .ok (d, DEFAULT_SLEEP)
  else .ok (apply_state_change now state, 0)

/-- Justifies the inlining in `check_blocked`/`check_blocked_closing`:
calling `__set_state(State.error)` from a moving state always takes
the state-change path and returns `0`. -/
theorem set_state_error_of_moving (d : Door) (now : Nat) (upper lower : Bool)
    (h : is_moving d.state) :
    set_state d now upper lower State.error =
      .ok (apply_state_change now State.error, 0) := by
  have hne : d.state ≠ State.error := by
    rcases h with h | h <;> simp [h]
  simp [set_state, hne]

/-- `Door.__set_desired` (lines 154-158).  The `while` loop is modelled
with explicit fuel: `.ok none` means the fuel ran out with the loop
still busy-waiting (the code itself flags the busy wait as a FIXME);
`.ok (some d)` means the loop returned with final door fields `d`;
`.error e` means an exception escaped the loop. -/
def set_desired : Nat → Door → Nat → Bool → Bool → State → Except PyErr (Option Door)
  | 0, _, _, _, _, _ => .ok none
  | fuel + 1, d, now, upper, lower, desired =>
    if d.state = desired then .ok (some d)
    else
      match transition_state d.state desired with
      | .error e => .error e
      | .ok s =>
        match set_state d now upper lower s with
        | .error e => .error e
        | .ok (d', _) =>
          if d'.state = State.error then .ok (some d')
          else set_desired fuel d' now upper lower desired

/-- `Door.__toggle` (lines 191-192): the button-press handler. -/
def toggle (fuel : Nat) (d : Door) (now : Nat) (upper lower : Bool) :
    Except PyErr (Option Door) :=
  match toggle_state d.state with
  | .error e => .error e
  | .ok t => set_desired fuel d now upper lower t

/-- `Door.__set_open` (lines 194-207): the upper-limit-sensor handler.
When the state is `closing`, line 203 evaluates the undefined name
`CLOSING_THESHOLD` (note the missing `R`, a typo for
`CLOSING_THRESHOLD`), so Python raises `NameError` before any
comparison can happen. -/
def set_open (d : Door) (now : Nat) (upper lower : Bool) : Except PyErr Door :=
  if d.state = State.closing then
    .error PyErr.nameError
  else
    match set_state d now upper lower State.«open» with
    | .error e => .error e
    | .ok (d', _) => .ok d'

/-- `Door.__set_closed` (lines 209-222): the lower-limit-sensor
handler.  `self.opening_started + OPENING_THRESHOLD` raises
`TypeError` when `opening_started` is `None`. -/
def set_closed (d : Door) (now : Nat) (upper lower : Bool) : Except PyErr Door :=
  if d.state = State.opening then
    match d.opening_started with
    | none => .error PyErr.typeError
    | some t0 =>
      if t0 + OPENING_THRESHOLD < now then
        match set_state d now upper lower State.error with
        | .error e => .error e
        | .ok (d', _) => .ok d'
      else .ok d
  else
    match set_state d now upper lower State.closed with
    | .error e => .error e
    | .ok (d', _) => .ok d'

/-- The timestamp invariant of spec §3 on the `Door` fields:
`opening_started` is set iff the state is `opening`, `closing_started`
is set iff the state is `closing`, and never both. -/
def tsInv (d : Door) : Prop :=
  (d.opening_started ≠ none ↔ d.state = State.opening) ∧
  (d.closing_started ≠ none ↔ d.state = State.closing) ∧
  ¬(d.opening_started ≠ none ∧ d.closing_started ≠ none)

instance (d : Door) : Decidable (tsInv d) := by
  unfold tsInv; infer_instance

/-- The state-change path always (re-)establishes the timestamp
invariant, whatever the previous door fields were. -/
theorem tsInv_apply_state_change (now : Nat) (s : State) :
    tsInv (apply_state_change now s) := by
  cases s <;> simp [tsInv, apply_state_change]

theorem check_blocked_closing_of_not (d : Door) (now : Nat) (upper : Bool)
    (h : ¬(d.state = State.closing ∧ upper = true)) :
    check_blocked_closing d now upper = .ok (d, 0) := by
  simp only [check_blocked_closing, if_neg h]

theorem check_blocked_closing_some (d : Door) (now : Nat) (upper : Bool) (t0 : Nat)
    (h1 : d.state = State.closing) (h2 : upper = true)
    (h3 : d.closing_started = some t0) :
    check_blocked_closing d now upper =
      if t0 + CLOSING_THRESHOLD < now then .ok (apply_state_change now State.error, 0)
      else .ok (d, 0) := by
  simp only [check_blocked_closing, if_pos (And.intro h1 h2), h3]

theorem check_blocked_of_not_opening (d : Door) (now : Nat) (upper lower : Bool)
    (h : ¬(d.state = State.opening ∧ lower = true)) :
    check_blocked d now upper lower = check_blocked_closing d now upper := by
  simp only [check_blocked, if_neg h]

theorem check_blocked_opening_some (d : Door) (now : Nat) (upper lower : Bool) (t0 : Nat)
    (h1 : d.state = State.opening) (h2 : lower = true)
    (h3 : d.opening_started = some t0) :
    check_blocked d now upper lower =
      if t0 + OPENING_THRESHOLD < now then .ok (apply_state_change now State.error, 0)
      else .ok (d, 0) := by
  simp only [check_blocked, if_pos (And.intro h1 h2), h3]
  split_ifs with hlt
  · rfl
  · exact check_blocked_closing_of_not d now upper (by simp [h1])

theorem check_blocked_not_moving (d : Door) (now : Nat) (upper lower : Bool)
    (h : ¬ is_moving d.state) :
    check_blocked d now upper lower = .ok (d, 0) := by
  have ho : d.state ≠ State.opening := fun hc => h (Or.inl hc)
  have hc : d.state ≠ State.closing := fun hc => h (Or.inr hc)
  rw [check_blocked_of_not_opening d now upper lower (by simp [ho]),
    check_blocked_closing_of_not d now upper (by simp [hc])]

/-- The specification's reference description of the transition step
(§4.2): fixed point on `Error` or agreement, one step toward `Open` or
`Closed`, contract violation for any other desired value. -/
def transitionStateSpec (actual desired : State) : Except PyErr State :=
  if actual = State.error then .ok actual
  else if actual = desired then .ok actual
  else
    match desired with
    | State.«open» => .ok State.opening
    | State.closed => .ok State.closing
    | _ => .error PyErr.valueError

/-- The specification's toggle table (§4.3). -/
def toggleSpecTable : State → State
  | State.unknown | State.error => State.«open»
  | State.opening => State.opening_stopped
  | State.opening_stopped | State.«open» => State.closed
  | State.closing => State.closing_stopped
  | State.closing_stopped | State.closed => State.«open»

/-- C4: `transition_state` equals the reference definition of §4.2:
`Error` is a sink and agreement is a fixed point; otherwise desired
`Open` yields `Opening` and desired `Closed` yields `Closing`. -/
theorem transition_state_eq_spec :
    ∀ a d : State, transition_state a d = transitionStateSpec a d := by
  decide

/-- C3: `transition_state` raises exactly when the actual state is not
`Error`, differs from the desired state, and the desired state is
neither `Open` nor `Closed`; `toggle_state` never raises on a value of
the `State` enum. -/
theorem raise_conditions :
    (∀ a d : State,
      transition_state a d = .error PyErr.valueError ↔
        a ≠ State.error ∧ a ≠ d ∧ d ≠ State.«open» ∧ d ≠ State.closed) ∧
    (∀ c : State, ∃ v, toggle_state c = .ok v) := by
  decide

/-- C8: `toggle_state` is total over the eight states and agrees with
the §4.3 table; from `Open` it is a two-step cycle through `Closed`,
not a one-step involution. -/
theorem toggle_state_eq_table :
    (∀ c : State, toggle_state c = .ok (toggleSpecTable c)) ∧
    toggle_state State.«open» = .ok State.closed ∧
    toggle_state State.closed = .ok State.«open» ∧
    toggleSpecTable State.«open» ≠ State.«open» ∧
    toggleSpecTable (toggleSpecTable State.«open») = State.«open» := by
  decide

/-- C10: on every `State` value, `toggle_state` succeeds and its value
lies in {`Open`, `Closed`, `OpeningStopped`, `ClosingStopped`}: a
button press never requests `Unknown` or `Error`. -/
theorem toggle_state_range :
    ∀ c : State, ∃ v, toggle_state c = .ok v ∧
      (v = State.«open» ∨ v = State.closed ∨
       v = State.opening_stopped ∨ v = State.closing_stopped) := by
  decide

/-- C7: `desired_state` compares `now` against the effective sunrise,
which is 06:00 when the astronomical sunrise's hour is below 6 and the
astronomical sunrise unchanged otherwise (so 05:30 clamps to 06:00 and
07:00 stays 07:00), and returns `Open` exactly when `now` lies
strictly between the effective sunrise and the sunset. -/
theorem desired_state_spec :
    (∀ rise set now : Nat,
      desired_state rise set now =
        if effective_rise rise < now ∧ now < set then State.«open» else State.closed) ∧
    (∀ rise : Nat,
      effective_rise rise = if hourOf rise < 6 then SIX_AM else rise) ∧
    effective_rise (5 * USEC_PER_HOUR + 30 * 60 * USEC_PER_SEC) = SIX_AM ∧
    effective_rise (7 * USEC_PER_HOUR) = 7 * USEC_PER_HOUR := by
  refine ⟨fun rise set now => rfl, fun rise => rfl, by decide, by decide⟩

/-- C1: pressing the button while the door is `Opening` (resp.
`Closing`) does not drive the door to `OpeningStopped` (resp.
`ClosingStopped`): the handler feeds `toggle_state`'s result to
`transition_state`, which raises `ValueError` — a contract violation —
on the very first loop iteration, for any fuel left in the loop. -/
theorem toggle_while_moving_raises :
    toggle 5 { state := State.opening, opening_started := some 0, closing_started := none }
      100 false false = .error PyErr.valueError ∧
    toggle 5 { state := State.closing, opening_started := none, closing_started := some 0 }
      100 false false = .error PyErr.valueError := by
  decide

/-- C2: the upper-sensor handler raises `NameError` whenever the state
is `Closing` — both 0.5 s after `closing_started` (where the claim
says the event is ignored) and 2.1 s after (where the claim says
`Error` is latched) — because line 203 misspells `CLOSING_THRESHOLD`;
in a non-`Closing` state it does force the state to `Open`. -/
theorem set_open_raises_nameError :
    set_open { state := State.closing, opening_started := none, closing_started := some 0 }
      500000 true false = .error PyErr.nameError ∧
    set_open { state := State.closing, opening_started := none, closing_started := some 0 }
      2100000 true false = .error PyErr.nameError ∧
    set_open { state := State.opening, opening_started := some 0, closing_started := none }
      100 true false =
      .ok { state := State.«open», opening_started := none, closing_started := none } := by
  decide

/-- C5: while `Opening` with the lower sensor asserted, the blocked
check latches `Error` exactly when `now` strictly exceeds
`opening_started + OPENING_THRESHOLD` and leaves the door unchanged at
or before that instant; symmetrically while `Closing` against the
upper sensor; in a non-moving state it changes nothing. -/
theorem check_blocked_spec (d : Door) (now t0 : Nat) (upper lower : Bool) :
    (d.state = State.opening → lower = true → d.opening_started = some t0 →
      check_blocked d now upper lower =
        if t0 + OPENING_THRESHOLD < now then .ok (apply_state_change now State.error, 0)
        else .ok (d, 0)) ∧
    (d.state = State.closing → upper = true → d.closing_started = some t0 →
      check_blocked d now upper lower =
        if t0 + CLOSING_THRESHOLD < now then .ok (apply_state_change now State.error, 0)
        else .ok (d, 0)) ∧
    (¬ is_moving d.state → check_blocked d now upper lower = .ok (d, 0)) := by
  refine ⟨?_, ?_, ?_⟩
  · intro h1 h2 h3
    exact check_blocked_opening_some d now upper lower t0 h1 h2 h3
  · intro h1 h2 h3
    rw [check_blocked_of_not_opening d now upper lower (by simp [h1])]
    exact check_blocked_closing_some d now upper t0 h1 h2 h3
  · intro h
    exact check_blocked_not_moving d now upper lower h

/-- Witness for C5: a door `Opening` since `t0 = 0` with the lower
sensor still asserted at `now` = 2.000001 s is latched to `Error`. -/
theorem check_blocked_spec_witness :
    check_blocked { state := State.opening, opening_started := some 0, closing_started := none }
      2000001 false true = .ok (apply_state_change 2000001 State.error, 0) := by
  have h := (check_blocked_spec
    { state := State.opening, opening_started := some 0, closing_started := none }
    2000001 0 false true).1 rfl rfl rfl
  rw [if_pos (by decide)] at h
  exact h

/-- C6: every call to the state-setting operation (`Door.__set_state`)
made from a door satisfying the timestamp invariant returns normally
and yields a door satisfying it again: `opening_started` set iff the
resulting state is `opening`, `closing_started` set iff `closing`,
never both. -/
theorem set_state_preserves_tsInv (d : Door) (now : Nat) (upper lower : Bool) (s : State)
    (h : tsInv d) :
    ∃ d' n, set_state d now upper lower s = .ok (d', n) ∧ tsInv d' := by
  by_cases hds : d.state = s
  · rw [set_state, if_pos hds]
    by_cases hm : is_moving s
    · rw [if_pos hm]
      rcases hm with ho | hc
      · have hdo : d.state = State.opening := ho ▸ hds
        have hne : d.opening_started ≠ none := h.1.mpr hdo
        obtain ⟨t0, ht0⟩ : ∃ t0, d.opening_started = some t0 := by
          cases hcase : d.opening_started with
          | none => exact absurd hcase hne
          | some t => exact ⟨t, rfl⟩
        by_cases hl : lower = true
        · rw [check_blocked_opening_some d now upper lower t0 hdo hl ht0]
          split_ifs with hlt
          · exact ⟨_, _, rfl, tsInv_apply_state_change now State.error⟩
          · exact ⟨d, 0, rfl, h⟩
        · rw [check_blocked_of_not_opening d now upper lower (by simp [hl]),
            check_blocked_closing_of_not d now upper (by simp [hdo])]
          exact ⟨d, 0, rfl, h⟩
      · have hdc : d.state = State.closing := hc ▸ hds
        have hne : d.closing_started ≠ none := h.2.1.mpr hdc
        obtain ⟨t0, ht0⟩ : ∃ t0, d.closing_started = some t0 := by
          cases hcase : d.closing_started with
          | none => exact absurd hcase hne
          | some t => exact ⟨t, rfl⟩
        rw [check_blocked_of_not_opening d now upper lower (by simp [hdc])]
        by_cases hu : upper = true
        · rw [check_blocked_closing_some d now upper t0 hdc hu ht0]
          split_ifs with hlt
          · exact ⟨_, _, rfl, tsInv_apply_state_change now State.error⟩
          · exact ⟨d, 0, rfl, h⟩
        · rw [check_blocked_closing_of_not d now upper (by simp [hu])]
          exact ⟨d, 0, rfl, h⟩
    · rw [if_neg hm]
      exact ⟨d, DEFAULT_SLEEP, rfl, h⟩
  · rw [set_state, if_neg hds]
    exact ⟨_, 0, rfl, tsInv_apply_state_change now s⟩

/-- Witness for C6: starting `Open` with both timestamps clear and
requesting `Opening` succeeds and re-establishes the invariant. -/
theorem set_state_preserves_tsInv_witness :
    tsInv { state := State.«open», opening_started := none, closing_started := none } ∧
    ∃ d' n, set_state { state := State.«open», opening_started := none, closing_started := none }
      5 false false State.opening = .ok (d', n) ∧ tsInv d' :=
  ⟨by decide,
   set_state_preserves_tsInv
     { state := State.«open», opening_started := none, closing_started := none }
     5 false false State.opening (by decide)⟩

/-- C9: the lower-sensor handler latches `Error` when the door has
been `Opening` for strictly more than `OPENING_THRESHOLD`, takes no
action when `Opening` within the threshold, and forces the state to
`Closed` from every non-`Opening` state. -/
theorem set_closed_spec (d : Door) (now t0 : Nat) (upper lower : Bool) :
    (d.state = State.opening → d.opening_started = some t0 →
      set_closed d now upper lower =
        if t0 + OPENING_THRESHOLD < now then .ok (apply_state_change now State.error)
        else .ok d) ∧
    (d.state ≠ State.opening →
      ∃ d', set_closed d now upper lower = .ok d' ∧ d'.state = State.closed) := by
  constructor
  · intro h1 h2
    simp only [set_closed, if_pos h1, h2,
      set_state_error_of_moving d now upper lower (Or.inl h1)]
  · intro h1
    rw [set_closed, if_neg h1]
    by_cases hdc : d.state = State.closed
    · have hset : set_state d now upper lower State.closed = .ok (d, DEFAULT_SLEEP) := by
        rw [set_state, if_pos hdc, if_neg (by simp [is_moving])]
      rw [hset]
      exact ⟨d, rfl, hdc⟩
    · have hset : set_state d now upper lower State.closed =
          .ok (apply_state_change now State.closed, 0) := by
        rw [set_state, if_neg hdc]
      rw [hset]
      exact ⟨apply_state_change now State.closed, rfl, rfl⟩

/-- Witness for C9: a door `Opening` since `t0 = 0` whose lower sensor
fires at `now` = 2.000001 s is latched to `Error`. -/
theorem set_closed_spec_witness :
    set_closed { state := State.opening, opening_started := some 0, closing_started := none }
      2000001 false true = .ok (apply_state_change 2000001 State.error) := by
  have h := (set_closed_spec
    { state := State.opening, opening_started := some 0, closing_started := none }
    2000001 0 false true).1 rfl rfl
  rw [if_pos (by decide)] at h
  exact h

end Kippetjes
